import Mathlib

/-!
Verification of the modelx registry request-handling layer
(`src/pkg/registry/registry.go`) against its natural-language specification.

The Go code is shallowly embedded: pure helpers become Lean functions on
`String` / `List Char`, 64-bit integers become `Int` with explicit
two's-complement wrapping where Go arithmetic may overflow, and each HTTP
handler becomes a function from its request inputs and the abstract Store's
reply to the pair (list of response-writer events, list of Store calls made).
-/

deriving instance DecidableEq for Except

/-! ### Content-Range parsing (`ParseAndCheckContentRange`) -/

/-- Model of `strings.Split s "-"`: split a character list on every `'-'`.
Go's `strings.Split` never returns an empty slice; on the empty string it
returns one empty part. -/
def splitDash : List Char → List (List Char)
  | [] => [[]]
  | c :: rest =>
    if c = '-' then [] :: splitDash rest
    else
      match splitDash rest with
      | [] => [[c]]
      | p :: ps => (c :: p) :: ps

/-- Accumulate decimal digits as in Go's `strconv.ParseUint(s, 10, ...)`:
every character must be an ASCII digit. -/
def parseDigitsAux : Nat → List Char → Option Nat
  | acc, [] => some acc
  | acc, c :: rest =>
    if c.isDigit then parseDigitsAux (10 * acc + (c.toNat - 48)) rest else none

/-- Core of Go's `strconv.ParseInt(s, 10, 64)` after the sign has been
stripped: a nonempty all-digit string whose value fits in `int64`
(`n ≤ 2^63` when negative, `n ≤ 2^63 - 1` otherwise); any overflow is a
parse error, as `ParseInt` reports `ErrRange`. -/
def goParseIntCore (neg : Bool) (digits : List Char) : Option Int :=
  if digits = [] then none
  else
    match parseDigitsAux 0 digits with
    | none => none
    | some n =>
      if neg then (if n ≤ 2 ^ 63 then some (-(n : Int)) else none)
      else (if n ≤ 2 ^ 63 - 1 then some ((n : Int)) else none)

/-- Go's `strconv.ParseInt(s, 10, 64)`: optional leading `'+'` or `'-'`,
then a nonempty run of decimal digits, value within `int64` range. -/
def goParseInt : List Char → Option Int
  | [] => none
  | c :: rest =>
    if c = '-' then goParseIntCore true rest
    else if c = '+' then goParseIntCore false rest
    else goParseIntCore false (c :: rest)

/-- Two's-complement wrap of an integer into the `int64` range, modelling
Go's defined signed-overflow behaviour for `+` and `-` on `int64`. -/
def wrap64 (x : Int) : Int := (x + 2 ^ 63) % 2 ^ 64 - 2 ^ 63

/-- The detail strings of `errors.NewContentRangeInvalidError`, in the order
the checks appear in `ParseAndCheckContentRange`. -/
inductive ContentRangeErr where
  | invalidFormat
  | invalidStart
  | invalidEnd
  | startGtEnd
  | invalidContentLength
  | lengthMismatch
  deriving DecidableEq, Repr

/-- Source function `ParseAndCheckContentRange(header)`: split the `Content-Range` value on
`'-'`, require exactly two parts, parse both as `int64`, require
`start ≤ end`, parse the `Content-Length` value as `int64`, and require it to
equal `(end-start)+1` computed in `int64` arithmetic (which wraps). -/
def ParseAndCheckContentRange (contentRange contentLength : String) :
    Except ContentRangeErr (Int × Int) :=
  match splitDash contentRange.toList with
  | [r0, r1] =>
    match goParseInt r0 with
    | none => .error .invalidStart
    | some start =>
      match goParseInt r1 with
      | none => .error .invalidEnd
      | some endv =>
        if start > endv then .error .startGtEnd
        else
          match goParseInt contentLength.toList with
          | none => .error .invalidContentLength
          | some contentLen =>
            if contentLen ≠ wrap64 (wrap64 (endv - start) + 1) then .error .lengthMismatch
            else .ok (start, endv)
  | _ => .error .invalidFormat

/-! ### Digests, errors, wire types -/

/-- An algorithm-tagged content digest, as produced by a successful
`digest.Parse`. -/
structure Digest where
  algorithm : String
  encoded : String
  deriving DecidableEq, Repr

/-- Split a character list at its first `':'`; `none` when no colon occurs. -/
def splitColon : List Char → Option (List Char × List Char)
  | [] => none
  | c :: rest =>
    if c = ':' then some ([], rest)
    else
      match splitColon rest with
      | none => none
      | some (a, b) => some (c :: a, b)

/-- Lowercase-alphanumeric test for digest algorithm names. -/
def isLowerAlnum (c : Char) : Bool := c.isLower || c.isDigit

/-- Lowercase hexadecimal digit test. -/
def isHexLower (c : Char) : Bool := c.isDigit || ('a' ≤ c && c ≤ 'f')

/-- Modelled from the spec: `digest.Parse` (the go-digest library is not under
`src/`). Per §3/§4.1 a digest is "algorithm + hex-encoded hash", well-formed
when an algorithm prefix (nonempty, lowercase alphanumeric) is followed by a
`':'` and a nonempty hex-encoded hash; anything else fails to parse. -/
def digestParse (s : String) : Option Digest :=
  match splitColon s.toList with
  | none => none
  | some (alg, enc) =>
    if alg ≠ [] && enc ≠ [] && alg.all isLowerAlnum && enc.all isHexLower then
      some ⟨String.mk alg, String.mk enc⟩
    else none

/-- The registry error kinds of the `errors` package used by these handlers
(§4.3), each carrying its detail argument. -/
inductive RegErr where
  | digestInvalid (detail : String)
  | contentTypeInvalid (detail : String)
  | contentRangeInvalid (detail : String)
  | manifestInvalid (detail : String)
  | manifestUnknown (detail : String)
  | indexUnknown (name : String)
  | blobUnknown (detail : String)
  deriving DecidableEq, Repr

/-- A Go `error` value reaching a handler: either a storage-backend error
(possibly the S3 "not found" condition), a typed registry error, or any other
error. -/
inductive GoError where
  | s3NotFound (msg : String)
  | reg (e : RegErr)
  | other (msg : String)
  deriving DecidableEq, Repr

/-- Modelled from the spec: `IsS3StorageNotFound` (its defining file is not
under `src/`) recognises exactly the storage backend's "not found" condition
(§4.3 "underlying storage reports missing object"). -/
def IsS3StorageNotFound : GoError → Bool
  | .s3NotFound _ => true
  | _ => false

/-- Modelled from the spec: the HTTP status selected by the central error
responder for each error kind, per the §4.3 table; unrecognized errors fall
back to 500 (the `errors` package is not under `src/`). -/
def errorHTTPStatus : GoError → Nat
  | .reg (.digestInvalid _) => 400
  | .reg (.contentTypeInvalid _) => 400
  | .reg (.contentRangeInvalid _) => 400
  | .reg (.manifestInvalid _) => 400
  | .reg (.manifestUnknown _) => 404
  | .reg (.indexUnknown _) => 404
  | .reg (.blobUnknown _) => 404
  | .s3NotFound _ => 500
  | .other _ => 500

/-- Modelled from the spec: `types.Index`, an ordered collection of manifest
references (§3); `types.Index{}` is the empty index (the `types` package is
not under `src/`). -/
structure Index where
  entries : List String
  deriving DecidableEq, Repr

/-- Modelled from the spec: `types.Manifest`, an opaque client-defined JSON
document (§3); handlers never inspect it, so it is carried as its raw text. -/
structure Manifest where
  raw : String
  deriving DecidableEq, Repr

/-- The `StorageContent` record as built by `PutBlob`: declared length (may be `-1`),
content type, and the request body stream (carried as its byte string). -/
structure StorageContent where
  contentLength : Int
  contentType : String
  content : String
  deriving DecidableEq, Repr

/-- Stored blob metadata and bytes as returned by the Store for `GetBlob`. -/
structure BlobContent where
  contentLength : Int
  contentType : String
  contentEncoding : String
  content : String
  deriving DecidableEq, Repr

/-- The Store's reply for blob operations: a redirect location (empty string
means "no redirect", as the Go code tests `location != ""`) and, for GET,
the content to serve. -/
structure BlobResponse where
  redirectLocation : String
  content : BlobContent
  deriving DecidableEq, Repr

/-- The `types.Descriptor` record as built by `ParseDescriptor`. -/
structure Descriptor where
  digest : Digest
  mediaType : String
  deriving DecidableEq, Repr

/-- A response body written through the `http.ResponseWriter`. -/
inductive Body where
  | index (i : Index)
  | manifest (m : Manifest)
  | text (s : String)
  | blobStream (bytes : String)
  | errorBody (e : GoError)
  deriving DecidableEq, Repr

/-- One observable action on the `http.ResponseWriter`: `Header().Set`,
`Header().Add`, `WriteHeader`, or writing a body. -/
inductive HttpEvent where
  | setHeader (k v : String)
  | addHeader (k v : String)
  | writeHeader (status : Nat)
  | write (b : Body)
  deriving DecidableEq, Repr

/-- Modelled from the spec: `ResponseOK` (not under `src/`) writes a 200
status and the ok-wrapped JSON payload (§4.3). -/
def ResponseOK (b : Body) : List HttpEvent :=
  [.writeHeader 200, .write b]

/-- Modelled from the spec: `ResponseError` (not under `src/`) routes the
error through the central responder, writing the status selected by the
kind and a structured error body (§4.3). -/
def ResponseError (e : GoError) : List HttpEvent :=
  [.writeHeader (errorHTTPStatus e), .write (.errorBody e)]

/-- One call made to the abstract `RegistryStore`, with its arguments. -/
inductive StoreCall where
  | getGlobalIndex (search : String)
  | getIndex (name search : String)
  | removeIndex (name : String)
  | existsManifest (name reference : String)
  | getManifest (name reference : String)
  | putManifest (name reference contenttype : String) (m : Manifest)
  | deleteManifest (name reference : String)
  | existsBlob (repository : String) (d : Digest)
  | getBlob (repository : String) (d : Digest)
  | putBlob (repository : String) (d : Digest) (c : StorageContent)
  deriving DecidableEq, Repr

/-! ### Handlers

Each Go handler becomes a function from its request inputs (path variables,
headers, decoded body) and the Store's reply for the single call it makes, to
the pair `(response-writer events, Store calls made)`.  Passing the Store's
reply as a parameter embeds "the handler calls one Store operation and
translates its result"; the call list records whether the Store was reached
at all. -/

/-- Handler `Registry.GetGlobalIndex`: note the missing early `return` after the
not-found `ResponseOK` — the error responder still runs afterwards. -/
def GetGlobalIndex (search : String) (store : Except GoError Index) :
    List HttpEvent × List StoreCall :=
  match store with
  | .error err =>
    (if IsS3StorageNotFound err then ResponseOK (.index ⟨[]⟩) ++ ResponseError err
     else ResponseError err,
     [.getGlobalIndex search])
  | .ok index => (ResponseOK (.index index), [.getGlobalIndex search])

/-- Handler `Registry.GetIndex`: the S3 not-found condition is replaced by
`errors.NewIndexUnknownError(name)` before responding. -/
def GetIndex (name search : String) (store : Except GoError Index) :
    List HttpEvent × List StoreCall :=
  match store with
  | .error err =>
    (if IsS3StorageNotFound err then ResponseError (.reg (.indexUnknown name))
     else ResponseError err,
     [.getIndex name search])
  | .ok index => (ResponseOK (.index index), [.getIndex name search])

/-- Handler `Registry.DeleteIndex`. -/
def DeleteIndex (name : String) (store : Except GoError Unit) :
    List HttpEvent × List StoreCall :=
  match store with
  | .error err =>
    (if IsS3StorageNotFound err then ResponseError (.reg (.indexUnknown name))
     else ResponseError err,
     [.removeIndex name])
  | .ok _ => (ResponseOK (.text "ok"), [.removeIndex name])

/-- Handler `Registry.HeadManifest`. -/
def HeadManifest (name reference : String) (store : Except GoError Bool) :
    List HttpEvent × List StoreCall :=
  match store with
  | .error err => (ResponseError err, [.existsManifest name reference])
  | .ok exist =>
    (if exist then [.writeHeader 200] else [.writeHeader 404],
     [.existsManifest name reference])

/-- Handler `Registry.GetManifest`. -/
def GetManifest (name reference : String) (store : Except GoError Manifest) :
    List HttpEvent × List StoreCall :=
  match store with
  | .error err => (ResponseError err, [.getManifest name reference])
  | .ok manifest => (ResponseOK (.manifest manifest), [.getManifest name reference])

/-- Handler `Registry.PutManifest`.  JSON decoding of the request body
(`json.NewDecoder(r.Body).Decode`) is external; it is embedded as its
outcome `decodeResult`.  Note: the `Content-Type` header is read and passed
to the Store without any emptiness check. -/
def PutManifest (name reference : String) (decodeResult : Except String Manifest)
    (contenttype : String) (store : Except GoError Unit) :
    List HttpEvent × List StoreCall :=
  match decodeResult with
  | .error err => (ResponseError (.reg (.manifestInvalid err)), [])
  | .ok manifest =>
    match store with
    | .error err => (ResponseError err, [.putManifest name reference contenttype manifest])
    | .ok _ => ([.writeHeader 201], [.putManifest name reference contenttype manifest])

/-- Handler `Registry.DeleteManifest`: any Store error goes to `ResponseError`
unchanged; success writes 202. -/
def DeleteManifest (name reference : String) (store : Except GoError Unit) :
    List HttpEvent × List StoreCall :=
  match store with
  | .error err => (ResponseError err, [.deleteManifest name reference])
  | .ok _ => ([.writeHeader 202], [.deleteManifest name reference])

/-- Helper `BlobDigestFun`: parse the digest path variable; on failure respond
`DigestInvalid` without running the continuation, otherwise run it. -/
def BlobDigestFun (name digeststr : String)
    (fn : String → Digest → List HttpEvent × List StoreCall) :
    List HttpEvent × List StoreCall :=
  match digestParse digeststr with
  | none => (ResponseError (.reg (.digestInvalid digeststr)), [])
  | some d => fn name d

/-- Handler `Registry.HeadBlob`. -/
def HeadBlob (name digeststr : String) (store : Except GoError Bool) :
    List HttpEvent × List StoreCall :=
  BlobDigestFun name digeststr fun repository d =>
    match store with
    | .error err => (ResponseError err, [.existsBlob repository d])
    | .ok ok =>
      (if ok then [.writeHeader 200] else [.writeHeader 404], [.existsBlob repository d])

/-- Handler `Registry.PutBlob`: requires a non-empty `Content-Type`, builds the
`StorageContent` from the request, and either follows the Store's redirect
(Location + 307) or reports created (201). -/
def PutBlob (name digeststr contentType : String) (contentLength : Int)
    (body : String) (store : Except GoError BlobResponse) :
    List HttpEvent × List StoreCall :=
  BlobDigestFun name digeststr fun repository d =>
    if contentType = "" then (ResponseError (.reg (.contentTypeInvalid "empty")), [])
    else
      let content : StorageContent := ⟨contentLength, contentType, body⟩
      match store with
      | .error err => (ResponseError err, [.putBlob repository d content])
      | .ok result =>
        if result.redirectLocation ≠ "" then
          ([.setHeader "Location" result.redirectLocation, .writeHeader 307],
           [.putBlob repository d content])
        else ([.writeHeader 201], [.putBlob repository d content])

/-- Handler `Registry.GetBlob`: either follow the Store's redirect (Location + 302,
no body) or serve the bytes with `Content-Length`, `Content-Type` and
`Content-Encoding` set from the stored metadata. -/
def GetBlob (name digeststr : String) (store : Except GoError BlobResponse) :
    List HttpEvent × List StoreCall :=
  BlobDigestFun name digeststr fun repository d =>
    match store with
    | .error err => (ResponseError err, [.getBlob repository d])
    | .ok result =>
      if result.redirectLocation ≠ "" then
        ([.addHeader "Location" result.redirectLocation, .writeHeader 302],
         [.getBlob repository d])
      else
        ([.setHeader "Content-Length" (toString result.content.contentLength),
          .setHeader "Content-Type" result.content.contentType,
          .setHeader "Content-Encoding" result.content.contentEncoding,
          .writeHeader 200,
          .write (.blobStream result.content.content)],
         [.getBlob repository d])

/-- Source function `ParseDescriptor`: digest path variable first, then the `Content-Type`
header. -/
def ParseDescriptor (digeststr contentType : String) : Except GoError Descriptor :=
  match digestParse digeststr with
  | none => .error (.reg (.digestInvalid digeststr))
  | some d =>
    if contentType = "" then .error (.reg (.contentTypeInvalid "empty"))
    else .ok ⟨d, contentType⟩

example : ParseAndCheckContentRange "0-99" "100" = .ok (0, 99) := by decide
example : ParseAndCheckContentRange "0-99" "99" = .error .lengthMismatch := by decide
example : ParseAndCheckContentRange "5" "1" = .error .invalidFormat := by decide
example : ParseAndCheckContentRange "-5-7" "13" = .error .invalidFormat := by decide
example : ParseAndCheckContentRange "a-7" "8" = .error .invalidStart := by decide
example : ParseAndCheckContentRange "7-a" "8" = .error .invalidEnd := by decide
example : ParseAndCheckContentRange "9-7" "1" = .error .startGtEnd := by decide
example : ParseAndCheckContentRange "7-9" "x" = .error .invalidContentLength := by decide
example : ParseAndCheckContentRange "+3-5" "3" = .ok (3, 5) := by decide
example :
    ParseAndCheckContentRange "0-9223372036854775807" "-9223372036854775808" =
      .ok (0, 9223372036854775807) := by decide

/-! ### Lemmas about splitting and integer parsing -/

theorem splitDash_ne_nil (l : List Char) : splitDash l ≠ [] := by
  induction l with
  | nil => simp [splitDash]
  | cons c rest ih =>
    simp only [splitDash]
    by_cases hc : c = '-'
    · simp [hc]
    · rw [if_neg hc]
      rcases hs : splitDash rest with _ | ⟨p, ps⟩
      · simp
      · simp

theorem splitDash_no_dash (l : List Char) (p : List Char) (hp : p ∈ splitDash l) :
    '-' ∉ p := by
  induction l generalizing p with
  | nil =>
    simp only [splitDash, List.mem_singleton] at hp
    simp [hp]
  | cons c rest ih =>
    simp only [splitDash] at hp
    by_cases hc : c = '-'
    · rw [if_pos hc] at hp
      rcases List.mem_cons.mp hp with h | h
      · simp [h]
      · exact ih p h
    · rw [if_neg hc] at hp
      rcases hs : splitDash rest with _ | ⟨q, ps⟩
      · exact absurd hs (splitDash_ne_nil rest)
      · rw [hs] at hp
        rcases List.mem_cons.mp hp with h | h
        · subst h
          intro hmem
          rcases List.mem_cons.mp hmem with h1 | h1
          · exact hc h1.symm
          · exact ih q (by rw [hs]; exact List.mem_cons_self q ps) h1
        · exact ih p (by rw [hs]; exact List.mem_cons_of_mem q h)

theorem goParseIntCore_false_nonneg (digits : List Char) (v : Int)
    (h : goParseIntCore false digits = some v) : 0 ≤ v := by
  unfold goParseIntCore at h
  by_cases hd : digits = []
  · simp [hd] at h
  · rw [if_neg hd] at h
    rcases hp : parseDigitsAux 0 digits with _ | n
    · rw [hp] at h; exact absurd h (by simp)
    · rw [hp] at h
      simp only [Bool.false_eq_true, if_false] at h
      by_cases hn : n ≤ 2 ^ 63 - 1
      · rw [if_pos hn] at h
        obtain rfl : (n : Int) = v := Option.some.inj h
        exact Int.natCast_nonneg n
      · rw [if_neg hn] at h
        exact absurd h (by simp)

theorem goParseInt_nonneg (s : List Char) (v : Int) (hnd : '-' ∉ s)
    (h : goParseInt s = some v) : 0 ≤ v := by
  cases s with
  | nil => simp [goParseInt] at h
  | cons c rest =>
    have hc : c ≠ '-' := by
      intro hc
      exact hnd (hc ▸ List.mem_cons_self c rest)
    simp only [goParseInt] at h
    rw [if_neg hc] at h
    by_cases hplus : c = '+'
    · rw [if_pos hplus] at h
      exact goParseIntCore_false_nonneg rest v h
    · rw [if_neg hplus] at h
      exact goParseIntCore_false_nonneg (c :: rest) v h
/-- Claim C1 (amended): `ParseAndCheckContentRange` succeeds with `(start, end)`
iff the range header splits on `'-'` into exactly two parts that parse as
64-bit integers with `start ≤ end` and the length header parses as a 64-bit
integer equal to `end - start + 1` computed in wrapping `int64` arithmetic;
otherwise it fails with the `ContentRangeInvalid` detail of the first failing
check in the fixed order format, start, end, ordering, content-length parse,
arithmetic equality. -/
theorem parseAndCheckContentRange_characterization (cr cl : String) :
    (∀ s e : Int, ParseAndCheckContentRange cr cl = .ok (s, e) ↔
      (∃ r0 r1, splitDash cr.toList = [r0, r1] ∧ goParseInt r0 = some s ∧
        goParseInt r1 = some e ∧ s ≤ e ∧
        goParseInt cl.toList = some (wrap64 (wrap64 (e - s) + 1)))) ∧
    (ParseAndCheckContentRange cr cl = .error .invalidFormat ↔
      (∀ r0 r1, splitDash cr.toList ≠ [r0, r1])) ∧
    (ParseAndCheckContentRange cr cl = .error .invalidStart ↔
      (∃ r0 r1, splitDash cr.toList = [r0, r1] ∧ goParseInt r0 = none)) ∧
    (ParseAndCheckContentRange cr cl = .error .invalidEnd ↔
      (∃ r0 r1 s, splitDash cr.toList = [r0, r1] ∧ goParseInt r0 = some s ∧
        goParseInt r1 = none)) ∧
    (ParseAndCheckContentRange cr cl = .error .startGtEnd ↔
      (∃ r0 r1 s e, splitDash cr.toList = [r0, r1] ∧ goParseInt r0 = some s ∧
        goParseInt r1 = some e ∧ s > e)) ∧
    (ParseAndCheckContentRange cr cl = .error .invalidContentLength ↔
      (∃ r0 r1 s e, splitDash cr.toList = [r0, r1] ∧ goParseInt r0 = some s ∧
        goParseInt r1 = some e ∧ s ≤ e ∧ goParseInt cl.toList = none)) ∧
    (ParseAndCheckContentRange cr cl = .error .lengthMismatch ↔
      (∃ r0 r1 s e len, splitDash cr.toList = [r0, r1] ∧ goParseInt r0 = some s ∧
        goParseInt r1 = some e ∧ s ≤ e ∧ goParseInt cl.toList = some len ∧
        len ≠ wrap64 (wrap64 (e - s) + 1))) := by
  simp only [ParseAndCheckContentRange, String.toList]
  rcases hsplit : splitDash cr.data with _ | ⟨r0, _ | ⟨r1, _ | ⟨r2, rest⟩⟩⟩
  · simp [hsplit]
  · simp [hsplit]
  · rcases hp0 : goParseInt r0 with _ | s0
    · simp [hsplit, hp0, and_assoc]
    · rcases hp1 : goParseInt r1 with _ | e0
      · simp [hsplit, hp0, hp1, and_assoc]
      · by_cases hord : s0 > e0
        · simp [hsplit, hp0, hp1, hord, and_assoc]
        · rcases hcl : goParseInt cl.data with _ | len
          · simp [hsplit, hp0, hp1, hord, hcl, and_assoc]
            omega
          · by_cases hlen : len = wrap64 (wrap64 (e0 - s0) + 1)
            · simp [hsplit, hp0, hp1, hord, hcl, hlen, and_assoc]
              omega
            · simp [hsplit, hp0, hp1, hord, hcl, hlen, and_assoc]
              omega
  · simp [hsplit]

/-- Claim C1, counterexample to the claim as stated: with
`Content-Range: 0-9223372036854775807` and
`Content-Length: -9223372036854775808`, `ParseAndCheckContentRange` succeeds
(the Go `int64` computation `(end-start)+1` overflows to `-2^63`, matching
the parsed length), yet the length does not equal `end - start + 1` as
integers. -/
theorem parseAndCheckContentRange_overflow_counterexample :
    ParseAndCheckContentRange "0-9223372036854775807" "-9223372036854775808" =
      .ok (0, 9223372036854775807) ∧
    ¬((-9223372036854775808 : Int) = 9223372036854775807 - 0 + 1) :=
  ⟨by decide, by decide⟩

/-- Claim C9: whenever `ParseAndCheckContentRange` succeeds, the returned
bounds satisfy `0 ≤ start ≤ end`: a leading minus sign in either number is
consumed by the dash split, so the two parts never contain `'-'` and can only
parse to non-negative values. -/
theorem parseAndCheckContentRange_ok_nonneg (cr cl : String) (s e : Int)
    (h : ParseAndCheckContentRange cr cl = .ok (s, e)) : 0 ≤ s ∧ s ≤ e := by
  simp only [ParseAndCheckContentRange, String.toList] at h
  rcases hsplit : splitDash cr.data with _ | ⟨r0, _ | ⟨r1, _ | ⟨r2, rest⟩⟩⟩
  · simp [hsplit] at h
  · simp [hsplit] at h
  · rcases hp0 : goParseInt r0 with _ | s0
    · simp [hsplit, hp0] at h
    · rcases hp1 : goParseInt r1 with _ | e0
      · simp [hsplit, hp0, hp1] at h
      · by_cases hord : s0 > e0
        · simp [hsplit, hp0, hp1, hord] at h
        · rcases hcl : goParseInt cl.data with _ | len
          · simp [hsplit, hp0, hp1, hord, hcl] at h
          · by_cases hlen : len = wrap64 (wrap64 (e0 - s0) + 1)
            · simp [hsplit, hp0, hp1, hord, hcl, hlen] at h
              obtain ⟨rfl, rfl⟩ := h
              have hr0mem : r0 ∈ splitDash cr.data := by
                rw [hsplit]
                exact List.mem_cons_self _ _
              exact ⟨goParseInt_nonneg r0 _ (splitDash_no_dash _ r0 hr0mem) hp0,
                by omega⟩
            · simp [hsplit, hp0, hp1, hord, hcl, hlen] at h
  · simp [hsplit] at h

theorem parseAndCheckContentRange_ok_nonneg_witness :
    ParseAndCheckContentRange "0-99" "100" = .ok (0, 99) ∧
      (0 ≤ (0 : Int) ∧ (0 : Int) ≤ 99) :=
  ⟨by decide, parseAndCheckContentRange_ok_nonneg "0-99" "100" 0 99 (by decide)⟩

/-- Claim C2: evaluation of `GetGlobalIndex` at the failing input (Store
reports the S3 not-found condition).  The handler writes the 200 empty-index
response but, missing an early return, then also routes the error through
the responder, so a second (500) response attempt follows the empty-index
body — the not-found is surfaced after all, and the 200 is not the only
response written. -/
theorem getGlobalIndex_notFound_double_write :
    GetGlobalIndex "" (.error (.s3NotFound "NoSuchKey")) =
      ([.writeHeader 200, .write (.index ⟨[]⟩),
        .writeHeader 500, .write (.errorBody (.s3NotFound "NoSuchKey"))],
       [.getGlobalIndex ""]) := by
  decide

/-- Claim C3, counterexample to the claim as stated: a PUT manifest with a
well-formed body and an empty `Content-Type` header is not rejected with
`ContentTypeInvalid` — the handler responds 201 and performs the Store write,
passing the empty content type through; and a PUT blob whose digest is
malformed fails with `DigestInvalid` even when the `Content-Type` header is
also empty. -/
theorem putManifest_empty_content_type_counterexample :
    PutManifest "repo" "v1" (.ok ⟨"m"⟩) "" (.ok ()) =
      ([.writeHeader 201], [.putManifest "repo" "v1" "" ⟨"m"⟩]) ∧
    (PutManifest "repo" "v1" (.ok ⟨"m"⟩) "" (.ok ())).1 ≠
      ResponseError (.reg (.contentTypeInvalid "empty")) ∧
    (PutManifest "repo" "v1" (.ok ⟨"m"⟩) "" (.ok ())).2 ≠ [] ∧
    PutBlob "repo" "v1" "" 0 "" (.ok ⟨"", ⟨0, "", "", ""⟩⟩) =
      (ResponseError (.reg (.digestInvalid "v1")), []) := by
  refine ⟨by decide, by decide, by decide, by decide⟩

/-- Claim C3 (amended): a PUT blob whose digest parses and whose
`Content-Type` header is empty fails with `ContentTypeInvalid` (HTTP 400) and
performs no Store write; PUT manifest performs no `Content-Type` validation
and passes the (possibly empty) header value through to the Store write. -/
theorem putBlob_empty_content_type (name ds : String) (cl : Int) (body : String)
    (store : Except GoError BlobResponse) (d : Digest)
    (hd : digestParse ds = some d) :
    PutBlob name ds "" cl body store =
      (ResponseError (.reg (.contentTypeInvalid "empty")), []) ∧
    errorHTTPStatus (.reg (.contentTypeInvalid "empty")) = 400 ∧
    (∀ (nm ref ct : String) (m : Manifest) (sr : Except GoError Unit),
      (PutManifest nm ref (.ok m) ct sr).2 = [.putManifest nm ref ct m]) := by
  refine ⟨?_, rfl, ?_⟩
  · simp [PutBlob, BlobDigestFun, hd]
  · intro nm ref ct m sr
    cases sr <;> simp [PutManifest]

theorem putBlob_empty_content_type_witness :
    digestParse "sha256:0a1b" = some ⟨"sha256", "0a1b"⟩ ∧
    PutBlob "repo" "sha256:0a1b" "" 0 "" (.ok ⟨"", ⟨0, "", "", ""⟩⟩) =
      (ResponseError (.reg (.contentTypeInvalid "empty")), []) :=
  ⟨by decide,
    (putBlob_empty_content_type "repo" "sha256:0a1b" 0 "" (.ok ⟨"", ⟨0, "", "", ""⟩⟩)
      ⟨"sha256", "0a1b"⟩ (by decide)).1⟩

/-- Claim C4: for every digest path parameter that does not parse, each of
the blob endpoints (HEAD, GET, PUT) responds with the `DigestInvalid` error
(HTTP 400) and makes no call to the Store. -/
theorem blob_endpoints_invalid_digest (name ds ct : String) (cl : Int)
    (body : String) (headStore : Except GoError Bool)
    (getStore putStore : Except GoError BlobResponse)
    (h : digestParse ds = none) :
    HeadBlob name ds headStore = (ResponseError (.reg (.digestInvalid ds)), []) ∧
    GetBlob name ds getStore = (ResponseError (.reg (.digestInvalid ds)), []) ∧
    PutBlob name ds ct cl body putStore =
      (ResponseError (.reg (.digestInvalid ds)), []) ∧
    errorHTTPStatus (.reg (.digestInvalid ds)) = 400 := by
  refine ⟨?_, ?_, ?_, rfl⟩ <;> simp [HeadBlob, GetBlob, PutBlob, BlobDigestFun, h]

theorem blob_endpoints_invalid_digest_witness :
    digestParse "latest" = none ∧
    HeadBlob "repo" "latest" (.ok true) =
      (ResponseError (.reg (.digestInvalid "latest")), []) :=
  ⟨by decide,
    (blob_endpoints_invalid_digest "repo" "latest" "t" 0 "" (.ok true)
      (.ok ⟨"", ⟨0, "", "", ""⟩⟩) (.ok ⟨"", ⟨0, "", "", ""⟩⟩) (by decide)).1⟩

/-- Claim C5: on a successful PUT blob Store call the outcome is decided
entirely by the Store's result: a non-empty redirect location yields a
`Location` header and 307 with no body written by the handler, otherwise 201
with no `Location` header. -/
theorem putBlob_redirect_or_created (name ds ct : String) (cl : Int)
    (body : String) (res : BlobResponse) (d : Digest)
    (hd : digestParse ds = some d) (hct : ct ≠ "") :
    (res.redirectLocation ≠ "" →
      PutBlob name ds ct cl body (.ok res) =
        ([.setHeader "Location" res.redirectLocation, .writeHeader 307],
         [.putBlob name d ⟨cl, ct, body⟩]) ∧
      (∀ b : Body, HttpEvent.write b ∉ (PutBlob name ds ct cl body (.ok res)).1)) ∧
    (res.redirectLocation = "" →
      PutBlob name ds ct cl body (.ok res) =
        ([.writeHeader 201], [.putBlob name d ⟨cl, ct, body⟩]) ∧
      (∀ loc : String, HttpEvent.setHeader "Location" loc ∉
        (PutBlob name ds ct cl body (.ok res)).1)) := by
  constructor
  · intro hloc
    constructor
    · simp [PutBlob, BlobDigestFun, hd, hct, hloc]
    · intro b
      simp [PutBlob, BlobDigestFun, hd, hct, hloc]
  · intro hloc
    constructor
    · simp [PutBlob, BlobDigestFun, hd, hct, hloc]
    · intro loc
      simp [PutBlob, BlobDigestFun, hd, hct, hloc]

theorem putBlob_redirect_or_created_witness :
    digestParse "sha256:0a1b" = some ⟨"sha256", "0a1b"⟩ ∧
    PutBlob "repo" "sha256:0a1b" "application/tar" 4 "data"
        (.ok ⟨"https://bucket/up", ⟨0, "", "", ""⟩⟩) =
      ([.setHeader "Location" "https://bucket/up", .writeHeader 307],
       [.putBlob "repo" ⟨"sha256", "0a1b"⟩ ⟨4, "application/tar", "data"⟩]) :=
  ⟨by decide,
    ((putBlob_redirect_or_created "repo" "sha256:0a1b" "application/tar" 4 "data"
      ⟨"https://bucket/up", ⟨0, "", "", ""⟩⟩ ⟨"sha256", "0a1b"⟩ (by decide)
      (by decide)).1 (by decide)).1⟩

/-- Claim C6: on a successful GET blob Store call, a non-empty redirect
location yields a `Location` header and 302 with no body; otherwise the
handler sets `Content-Length`, `Content-Type` and `Content-Encoding` from the
stored metadata, responds 200, and streams the blob content as the body. -/
theorem getBlob_redirect_or_stream (name ds : String) (res : BlobResponse)
    (d : Digest) (hd : digestParse ds = some d) :
    (res.redirectLocation ≠ "" →
      GetBlob name ds (.ok res) =
        ([.addHeader "Location" res.redirectLocation, .writeHeader 302],
         [.getBlob name d]) ∧
      (∀ b : Body, HttpEvent.write b ∉ (GetBlob name ds (.ok res)).1)) ∧
    (res.redirectLocation = "" →
      GetBlob name ds (.ok res) =
        ([.setHeader "Content-Length" (toString res.content.contentLength),
          .setHeader "Content-Type" res.content.contentType,
          .setHeader "Content-Encoding" res.content.contentEncoding,
          .writeHeader 200,
          .write (.blobStream res.content.content)],
         [.getBlob name d])) := by
  constructor
  · intro hloc
    constructor
    · simp [GetBlob, BlobDigestFun, hd, hloc]
    · intro b
      simp [GetBlob, BlobDigestFun, hd, hloc]
  · intro hloc
    simp [GetBlob, BlobDigestFun, hd, hloc]

theorem getBlob_redirect_or_stream_witness :
    digestParse "sha256:0a1b" = some ⟨"sha256", "0a1b"⟩ ∧
    GetBlob "repo" "sha256:0a1b" (.ok ⟨"", ⟨4, "application/tar", "gzip", "data"⟩⟩) =
      ([.setHeader "Content-Length" "4",
        .setHeader "Content-Type" "application/tar",
        .setHeader "Content-Encoding" "gzip",
        .writeHeader 200,
        .write (.blobStream "data")],
       [.getBlob "repo" ⟨"sha256", "0a1b"⟩]) :=
  ⟨by decide,
    (getBlob_redirect_or_stream "repo" "sha256:0a1b"
      ⟨"", ⟨4, "application/tar", "gzip", "data"⟩⟩ ⟨"sha256", "0a1b"⟩
      (by decide)).2 (by decide)⟩

/-- Claim C7: a GET of a per-repository index where the Store reports the S3
not-found condition is translated into the `IndexUnknown` error (HTTP 404) —
a true error response, never an empty-index success. -/
theorem getIndex_notFound_indexUnknown (name search msg : String) :
    GetIndex name search (.error (.s3NotFound msg)) =
      (ResponseError (.reg (.indexUnknown name)), [.getIndex name search]) ∧
    errorHTTPStatus (.reg (.indexUnknown name)) = 404 ∧
    (∀ i : Index, HttpEvent.write (.index i) ∉
      (GetIndex name search (.error (.s3NotFound msg))).1) := by
  refine ⟨?_, rfl, ?_⟩
  · simp [GetIndex, IsS3StorageNotFound]
  · intro i
    simp [GetIndex, IsS3StorageNotFound, ResponseError]

/-- Claim C8: DELETE manifest propagates every Store error to the error
responder unchanged (no translation of absence into success or into an
`Unknown` kind) and responds 202 on Store success. -/
theorem deleteManifest_propagates_errors (name reference : String) :
    (∀ e : GoError, DeleteManifest name reference (.error e) =
      (ResponseError e, [.deleteManifest name reference])) ∧
    DeleteManifest name reference (.ok ()) =
      ([.writeHeader 202], [.deleteManifest name reference]) :=
  ⟨fun _ => rfl, rfl⟩

/-- Claim C10: `ParseDescriptor` validates the digest before the content
type: a malformed digest always yields `DigestInvalid` (even when the
`Content-Type` header is also empty), and `ContentTypeInvalid` is returned
exactly when the digest parses and the `Content-Type` header is empty. -/
theorem parseDescriptor_digest_before_content_type (ds ct : String) :
    (digestParse ds = none →
      ParseDescriptor ds ct = .error (.reg (.digestInvalid ds))) ∧
    (ParseDescriptor ds ct = .error (.reg (.contentTypeInvalid "empty")) ↔
      (∃ d, digestParse ds = some d) ∧ ct = "") := by
  constructor
  · intro h
    simp [ParseDescriptor, h]
  · rcases h : digestParse ds with _ | d
    · simp [ParseDescriptor, h]
    · by_cases hct : ct = ""
      · simp [ParseDescriptor, h, hct]
      · simp [ParseDescriptor, h, hct]

theorem parseDescriptor_digest_before_content_type_witness :
    digestParse "latest0" = none ∧
    ParseDescriptor "latest0" "" = .error (.reg (.digestInvalid "latest0")) :=
  ⟨by decide, (parseDescriptor_digest_before_content_type "latest0" "").1 (by decide)⟩

theorem parseAndCheckContentRange_characterization_witness :
    ParseAndCheckContentRange "0-99" "100" = .ok (0, 99) :=
  ((parseAndCheckContentRange_characterization "0-99" "100").1 0 99).mpr
    ⟨['0'], ['9', '9'], by decide, by decide, by decide, by decide, by decide⟩

theorem getIndex_notFound_indexUnknown_witness :
    GetIndex "repo" "" (.error (.s3NotFound "NoSuchKey")) =
      (ResponseError (.reg (.indexUnknown "repo")), [.getIndex "repo" ""]) :=
  (getIndex_notFound_indexUnknown "repo" "" "NoSuchKey").1
